import Mathlib

/-
Verification development for the notion-report-generator repository.

The definitions below are a shallow embedding of the two source files
src/code/notion_connection.py and src/code/report.py. Remote HTTP traffic is
modelled by passing the data a response would carry (result lists, child
blocks, database rows) as explicit arguments; Python exceptions are modelled
with Except, keeping the exact message strings of the source where the source
fixes them. Line numbers in the doc comments refer to the source files.
-/

/-- Model of one rich text run: a Notion rich_text or title item reduced to its
plain_text value, the only field the source reads. -/
structure RichRun where
  plain_text : String
deriving DecidableEq

/-- Model of a Notion select value: an object of which the source reads the
name field. -/
structure SelectVal where
  name : String
deriving DecidableEq

/-- Model of a Notion date value: an object of which the source reads the
start field. -/
structure DateVal where
  start : String
deriving DecidableEq

/-- Properties of a top level report page, as read by
ReportManager.obtain_report (report.py lines 70 to 96). A property that Python
truthiness would treat as absent (None or an empty list) is modelled as none
or as the empty list. -/
structure RawReportProps where
  dia : Option DateVal
  horario : Option SelectVal
  comentarios : List RichRun
  companeros : List SelectVal
deriving DecidableEq

/-- A top level report record: its page id and its properties. -/
structure RawReport where
  id : String
  props : RawReportProps
deriving DecidableEq

/-- A direct child block of the report page, carrying the Notion type
discriminator string (notion_connection.py line 104). -/
structure RawBlock where
  id : String
  type : String
deriving DecidableEq

/-- A record (row) of the nested database. In the source these are plain JSON
dictionaries; a row of a Notion database carries every property column of the
database, possibly empty, so one record shape covers both the visit shaped
rows and the entry shaped rows. -/
structure RawRecord where
  id : String
  impresion : List RichRun
  nombre : List RichRun
  patio : Option SelectVal
  observaciones : List RichRun
  importante : List RichRun
  estado : Option SelectVal
deriving DecidableEq

/-- Model of Connection.report_info_from_date (notion_connection.py lines 54
to 79) after the HTTP response arrived: reports is the results list of the
date filtered query. Lines 73 to 78: zero results raise, more than one result
raises, otherwise the single result reports[0] is returned. -/
def report_info_from_date (reports : List RawReport) : Except String RawReport :=
  match reports with
  | [] => .error "ERROR: There is no report written on that date."
  | [report] => .ok report
  | _ :: _ :: _ => .error "ERROR: More than one report within the same date."

/-- Model of the pagination loop of Connection.report_content_from_id
(notion_connection.py lines 118 to 127), one call per request. The server
answers the request at cursor start with the page records[start, start + k)
and has_more exactly when records remain beyond the page; the next_cursor is
start + k. The loop concatenates the pages in received order; the second
component counts the requests made. The conjunct 0 < k appears in the guard
only to make the recursion well founded: with a zero page size and a nonempty
collection the source loop would never terminate, and every statement proved
below assumes 0 < k. -/
def queryAllFrom (k : Nat) (records : List α) (start : Nat) : List α × Nat :=
  if h : start + k < records.length ∧ 0 < k then
    ((records.drop start).take k ++ (queryAllFrom k records (start + k)).1,
     (queryAllFrom k records (start + k)).2 + 1)
  else
    ((records.drop start).take k, 1)
termination_by records.length - start
decreasing_by all_goals omega

/-- The full paginated retrieval: the first request has no cursor, so it is
the request at cursor 0. -/
def queryAll (k : Nat) (records : List α) : List α × Nat :=
  queryAllFrom k records 0

/-- Result of report_content_from_id seen as a Python value. The source
returns a list (notion_connection.py line 129), while its caller at report.py
line 86 expects a dictionary whose two values it unpacks. asList models the
list the source actually returns; asDict models a dictionary, given by its
values in order, on which the .values() call of the caller would succeed. -/
inductive PyReportContent (α : Type u) where
  | asList : List α → PyReportContent α
  | asDict : List (List α) → PyReportContent α
deriving DecidableEq

/-- Model of the statement at report.py line 86: visits, report_database =
report_content.values(). Calling .values() on a Python list raises
AttributeError; on a dictionary it yields the values, and the unpacking then
requires exactly two of them. -/
def valuesUnpackTwo : PyReportContent α → Except String (List α × List α)
  | .asList _ => .error "AttributeError: list object has no attribute values"
  | .asDict [v1, v2] => .ok (v1, v2)
  | .asDict _ => .error "ValueError: wrong number of values to unpack"

/-- Model of Connection.report_content_from_id (notion_connection.py lines 82
to 129). childBlocks are the direct children of the report page, dbRecords
gives the rows of a database by database id, and k is the server page size.
Lines 103 to 109: collect the ids of the child_database blocks and require
exactly one of them. Lines 111 to 129: query that database page by page and
return the concatenated results, which form a flat list. -/
def report_content_from_id (report_id : String) (childBlocks : List RawBlock)
    (dbRecords : String → List RawRecord) (k : Nat) :
    Except String (PyReportContent RawRecord) :=
  let inner_dbs :=
    (childBlocks.filter (fun block => block.type == "child_database")).map
      (fun block => block.id)
  match inner_dbs with
  | [database_id] => .ok (.asList (queryAll k (dbRecords database_id)).1)
  | _ => .error ("ERROR: Something went wrong with the format on page " ++ report_id)

/-- The recurring optional rich text pattern of the source (report.py lines
76 to 79, 108 to 115): the plain text of the first run, or the empty string
when the run list is empty. -/
def firstRunText (runs : List RichRun) : String :=
  match runs with
  | [] => ""
  | run :: _ => run.plain_text

/-- The optional select pattern of the source (report.py lines 116 to 119):
the name of the select value, or the empty string when it is unset. -/
def selectName (sel : Option SelectVal) : String :=
  match sel with
  | none => ""
  | some s => s.name

/-- Normalized entry as built by the local function _filter_content
(report.py lines 122 to 128). -/
structure Entry where
  name : String
  yard : String
  state : String
  observations : String
  important : String
deriving DecidableEq

/-- Model of the local function _filter_content of obtain_report (report.py
lines 98 to 130). Lines 102 to 105: an empty title list or an unset select
raises, the name check first. Lines 108 to 119: optional fields default to
the empty string when their list is empty or their select is unset, otherwise
the first run or the select name is taken. Lines 122 to 128: the normalized
entry. -/
def _filter_content (entry : RawRecord) : Except String Entry :=
  match entry.nombre, entry.patio with
  | [], _ => .error "ERROR: Some entry has no name."
  | _ :: _, none => .error "ERROR: Some entry has no yard."
  | nameRun :: _, some patio =>
    .ok { name := nameRun.plain_text, yard := patio.name,
          state := selectName entry.estado,
          observations := firstRunText entry.observaciones,
          important := firstRunText entry.importante }

/-- Model of the visit extraction applied to each visit row at report.py line
88: properties, field Impresión, rich_text, index [0], plain_text. Indexing
[0] on an empty run list raises IndexError. -/
def extractImpression (visit : RawRecord) : Except String String :=
  match visit.impresion with
  | [] => .error "IndexError: list index out of range"
  | run :: _ => .ok run.plain_text

/-- Data the Connection object stores (notion_connection.py lines 27 to 28). -/
structure ConnectionCfg where
  api_token : String
  database_id : String
deriving DecidableEq

/-- Class level state of ReportManager (report.py lines 24 to 25): cxn and
author start as None and are set by the class method at lines 27 to 41. -/
structure ManagerState where
  cxn : Option ConnectionCfg
  author : Option String
deriving DecidableEq

/-- Model of ReportManager.initialize (report.py lines 27 to 41): builds a
Connection from the token and the database id and sets both class
attributes. -/
def initManager (author api_token database_id : String) : ManagerState :=
  { cxn := some { api_token := api_token, database_id := database_id },
    author := some author }

/-- The remote data one retrieval cycle can observe: the result list of the
date query, the child blocks of the matched report page, the rows of each
database by id, and the server page size. -/
structure RemoteWorld where
  matching : List RawReport
  childBlocks : List RawBlock
  dbRecords : String → List RawRecord
  pageSize : Nat

/-- The dictionary ReportManager.obtain_report returns (report.py lines 90 to
96 and 134), flattened: the report info fields and the normalized content. -/
structure ObtainedReport where
  info_date : String
  info_shift : String
  info_colleagues : List String
  info_comments : String
  info_visits : List String
  content : List Entry
deriving DecidableEq

/-- Model of ReportManager.obtain_report (report.py lines 43 to 134). Line
65: locate the report by date. Lines 70 to 73: mandatory date and shift.
Lines 76 to 83: optional comments and colleagues. Line 85: fetch the nested
database content. Line 86: unpack report_content.values() into the visit rows
and the entry rows. Line 88: extract the first impression run of each visit
row. Line 132: normalize each entry row. -/
def obtain_report (remote : RemoteWorld) : Except String ObtainedReport :=
  match report_info_from_date remote.matching with
  | .error e => .error e
  | .ok report =>
    match report.props.dia, report.props.horario with
    | none, _ => .error "ERROR: The report has no date."
    | some _, none => .error "ERROR: The report has no shift selected."
    | some dia, some horario =>
      let comments := firstRunText report.props.comentarios
      let colleagues := report.props.companeros.map (fun col => col.name)
      match report_content_from_id report.id remote.childBlocks remote.dbRecords
          remote.pageSize with
      | .error e => .error e
      | .ok report_content =>
        match valuesUnpackTwo report_content with
        | .error e => .error e
        | .ok (visitRows, databaseRows) =>
          match visitRows.mapM extractImpression with
          | .error e => .error e
          | .ok visits =>
            match databaseRows.mapM _filter_content with
            | .error e => .error e
            | .ok entries =>
              .ok { info_date := dia.start, info_shift := horario.name,
                    info_colleagues := colleagues, info_comments := comments,
                    info_visits := visits, content := entries }

/-- Instance fields of a Report (report.py lines 165 to 170). -/
structure ReportData where
  date : String
  shift : String
  participants : List String
  comments : String
  visits : List String
  content : List Entry
deriving DecidableEq

/-- Model of the status counts of Report.write (report.py lines 173 to 175),
given that the state column exists: the sum of an exact equality mask over
the content rows. -/
def countByStatus (entries : List Entry) (status : String) : Nat :=
  entries.countP (fun e => e.state == status)

/-- The static shift table of Report.write (report.py line 176). -/
def hours : List (String × String × String) :=
  [("Mañana", "10:00", "14:00"), ("Tarde", "16:30", "20:30")]

/-- Dictionary lookup hours[shift] (report.py lines 181 to 182): some pair
for a known key; none models the KeyError branch for an unknown key. -/
def hoursLookup (shift : String) : Option (String × String) :=
  (hours.find? (fun row => row.1 == shift)).map (fun row => row.2)

/-- Lexicographic code point comparison of character lists: the order Python
uses to compare strings and hence the order pandas sorts group keys by. -/
def charListLeb : List Char → List Char → Bool
  | [], _ => true
  | _ :: _, [] => false
  | a :: as, b :: bs =>
    if a < b then true else if b < a then false else charListLeb as bs

/-- strLeb a b is true when a is lexicographically at most b. -/
def strLeb (a b : String) : Bool :=
  charListLeb a.data b.data

/-- Insert a string into a list so that a list sorted by strLeb stays
sorted. -/
def orderedIns (x : String) : List String → List String
  | [] => [x]
  | y :: ys => if strLeb x y then x :: y :: ys else y :: orderedIns x ys

/-- Insertion sort by strLeb: models the ascending key sort that pandas
groupby performs with its default sort=True. -/
def insSort : List String → List String
  | [] => []
  | y :: ys => orderedIns y (insSort ys)

/-- Distinct values of a list, in order of first occurrence. -/
def firstKeys (l : List String) : List String :=
  l.foldl (fun acc x => if x ∈ acc then acc else acc ++ [x]) []

/-- Model of self.content.groupby with the yard column (report.py line 202):
pandas groupby with its default sort=True yields the distinct keys in
ascending order, each paired with the rows of that key in their original
order. -/
def groupByYard (entries : List Entry) : List (String × List Entry) :=
  (insSort (firstKeys (entries.map (fun e => e.yard)))).map
    (fun y => (y, entries.filter (fun e => e.yard == y)))

/-- Grouping as the specification words it (groupByCategory in the spec):
category groups in insertion order of the first occurrence of each category.
Written from the words of the specification, for comparison with
groupByYard. -/
def groupByCategorySpec (entries : List Entry) : List (String × List Entry) :=
  (firstKeys (entries.map (fun e => e.yard))).map
    (fun y => (y, entries.filter (fun e => e.yard == y)))

/-- ASCII faithful model of the Python upper case conversion used on entry
names (report.py lines 199 and 207). -/
def pyUpper (s : String) : String :=
  String.mk (s.data.map Char.toUpper)

/-- ASCII faithful model of the Python lower case conversion used on the
shift name (report.py line 180). -/
def pyLower (s : String) : String :=
  String.mk (s.data.map Char.toLower)

/-- Failures Report.write can raise: KeyError on the state column of an empty
frame (line 173, a frame built from an empty list has no columns), IndexError
on the [-1] index of an empty participants list (line 180), KeyError on the
hours table for an unknown shift (line 181). -/
inductive WriteError where
  | stateColumnMissing : WriteError
  | participantsEmpty : WriteError
  | unknownShift : String → WriteError
deriving DecidableEq

/-- Model of Report.write (report.py lines 172 to 210). The output is the
list of printed lines; a rich Padding of (top, right, bottom, left)
contributes top empty lines before its line, bottom empty lines after it and
left spaces of indentation; the console line wrapping at width 100 is
presentation and is not modelled. The failure points appear in evaluation
order: the state column access of the counts, then the participants index in
the header, then the hours lookup of the second printed line. -/
def writeReport (r : ReportData) : Except WriteError (List String) :=
  if r.content.isEmpty then .error .stateColumnMissing
  else
    let n_shelter := countByStatus r.content "Acogida"
    let n_deaths := countByStatus r.content "Baja"
    let n_adoptions := countByStatus r.content "Adoptado"
    match r.participants.getLast? with
    | none => .error .participantsEmpty
    | some lastParticipant =>
      let header := r.date ++ " " ++
        String.intercalate ", " r.participants.dropLast ++ " y " ++
        lastParticipant ++ " (" ++ pyLower r.shift ++ ")"
      match hoursLookup r.shift with
      | none => .error (.unknownShift r.shift)
      | some (startHour, endHour) =>
        .ok ([header,
              "", "Hora de entrada: " ++ startHour,
              "Hora de entrada: " ++ endHour,
              "", "", "Entradas: X",
              "Acogidas: " ++ toString n_shelter,
              "Bajas: " ++ toString n_deaths,
              "Adopciones: " ++ toString n_adoptions,
              "", "", "Visitas: " ++ toString r.visits.length]
          ++ r.visits.enum.map (fun p => "  " ++ toString (p.1 + 1) ++ " - " ++ p.2)
          ++ ["", "", "Notas:", "  " ++ r.comments, ""]
          ++ (r.content.filter (fun e => e.important != "")).map
              (fun e => "  - " ++ pyUpper e.name ++ ": " ++ e.important)
          ++ ((groupByYard r.content).map (fun g =>
                ["", "Patio " ++ g.1 ++ ":"]
                ++ (g.2.filter (fun e => e.observations != "")).map
                    (fun e => "  - " ++ pyUpper e.name ++ ": " ++ e.observations))).flatten)

/-- Model of the date reformatting of Report.__init__ (report.py line 163)
for well formed day/month/year inputs; a malformed input would raise in the
source, which no claim exercises. -/
def reformatDate (date : String) : String :=
  match date.splitOn "/" with
  | [day, month, year] => year ++ "." ++ month ++ "." ++ day
  | _ => date

/-- Outcome of Report.__init__ together with the class level state after the
call. -/
structure InitOutcome where
  result : Except String ReportData
  state : ManagerState

/-- Model of Report.__init__ (report.py lines 142 to 170). Lines 157 to 158:
if the class attribute cxn is still None, raise before anything else; in
particular no remote request is made, which shows in the model as the outcome
not depending on the remote world. Otherwise run obtain_report and populate
the instance fields (lines 160 to 170). The source contains no assignment to
the class attributes outside the class method at lines 27 to 41, so the
returned class state equals the input state in every branch. The author
attribute is a string whenever it was set; the placeholder for a never set
author is rendered the way Python would render None, only to keep the
participants a string list. -/
def reportInit (st : ManagerState) (remote : RemoteWorld) (date : String) :
    InitOutcome :=
  if st.cxn.isNone then
    { result := .error "ERROR: The ReportManager has to be initialized first.",
      state := st }
  else
    match obtain_report remote with
    | .error e => { result := .error e, state := st }
    | .ok rep =>
      let author :=
        match st.author with
        | none => "None"
        | some a => a
      let built : ReportData :=
        { date := reformatDate date, shift := rep.info_shift,
          participants := rep.info_colleagues ++ [author],
          comments := rep.info_comments, visits := rep.info_visits,
          content := rep.content }
      { result := .ok built, state := st }

/-- needle starts the character list hay. -/
def startsWithChars : List Char → List Char → Bool
  | [], _ => true
  | _ :: _, [] => false
  | a :: as, b :: bs => a == b && startsWithChars as bs

/-- needle occurs as a contiguous substring of hay. -/
def strContainsSub (hay needle : String) : Bool :=
  (List.range (hay.data.length + 1)).any
    (fun i => startsWithChars needle.data (hay.data.drop i))

deriving instance DecidableEq for Except

/-- Sample report record used by concrete instantiations below. -/
def sampleReportA : RawReport :=
  { id := "rep-a",
    props := { dia := some { start := "2024-05-10" },
               horario := some { name := "Mañana" },
               comentarios := [], companeros := [] } }

/-- Second sample report record, for the ambiguous date case. -/
def sampleReportB : RawReport :=
  { id := "rep-b",
    props := { dia := some { start := "2024-05-10" },
               horario := some { name := "Tarde" },
               comentarios := [], companeros := [] } }

/-- A raw entry row with an identifier but an empty name title list. -/
def sampleEntryNoName : RawRecord :=
  { id := "abc123", impresion := [], nombre := [],
    patio := some { name := "1" }, observaciones := [], importante := [],
    estado := none }

/-- A raw entry row with name and yard present and every optional field
absent. -/
def sampleEntryOk : RawRecord :=
  { id := "rec-1", impresion := [], nombre := [{ plain_text := "Tom" }],
    patio := some { name := "1" }, observaciones := [], importante := [],
    estado := none }

/-- A raw entry row with name and yard present, observations and status
present and the important field absent. -/
def sampleEntryFull : RawRecord :=
  { id := "rec-2", impresion := [], nombre := [{ plain_text := "Tom" }],
    patio := some { name := "1" },
    observaciones := [{ plain_text := "eats well" }], importante := [],
    estado := some { name := "Baja" } }

/-- A raw visit row without any impression run. -/
def sampleVisitNoRun : RawRecord :=
  { id := "vis-0", impresion := [], nombre := [], patio := none,
    observaciones := [], importante := [], estado := none }

/-- A raw visit row with one impression run. -/
def sampleVisitGood : RawRecord :=
  { id := "vis-1", impresion := [{ plain_text := "Good" }], nombre := [],
    patio := none, observaciones := [], importante := [], estado := none }

/-- Normalized entry in yard B. -/
def sampleEntryYardB : Entry :=
  { name := "Rex", yard := "B", state := "", observations := "", important := "" }

/-- Normalized entry in yard A. -/
def sampleEntryYardA : Entry :=
  { name := "Ana", yard := "A", state := "", observations := "", important := "" }

/-- Entry list with yard categories B then A: first occurrence order differs
from ascending order. -/
def entriesBA : List Entry :=
  [sampleEntryYardB, sampleEntryYardA]

/-- Entry list with yard categories A, B, A, the example of the claim. -/
def entriesABA : List Entry :=
  [{ name := "Tom", yard := "A", state := "", observations := "", important := "" },
   { name := "Jerry", yard := "B", state := "", observations := "", important := "" },
   { name := "Spike", yard := "A", state := "", observations := "", important := "" }]

/-- Entry list with statuses Baja, Adoptado, Baja, the example of the claim. -/
def statusEntries : List Entry :=
  [{ name := "Tom", yard := "1", state := "Baja", observations := "", important := "" },
   { name := "Jerry", yard := "1", state := "Adoptado", observations := "", important := "" },
   { name := "Spike", yard := "1", state := "Baja", observations := "", important := "" }]

/-- A remote world whose report page has exactly one child database with no
rows, so that the content fetch itself succeeds. -/
def sampleRemoteOneDb : RemoteWorld :=
  { matching := [sampleReportA],
    childBlocks := [{ id := "db-1", type := "child_database" }],
    dbRecords := fun _ => [], pageSize := 1 }

/-- A second, different remote world, used to show that an outcome does not
depend on the remote side. -/
def sampleRemoteTwo : RemoteWorld :=
  { matching := [], childBlocks := [], dbRecords := fun _ => [], pageSize := 5 }

/-- An arbitrary obtained report value, target of a never reached success. -/
def sampleObtained : ObtainedReport :=
  { info_date := "", info_shift := "", info_colleagues := [],
    info_comments := "", info_visits := [], content := [] }

/-- A report whose content list is empty. -/
def emptyContentReport : ReportData :=
  { date := "2024.05.10", shift := "Mañana", participants := ["Ana"],
    comments := "", visits := [], content := [] }

/-- A report with an unknown shift name and nonempty content and
participants. -/
def unknownShiftReport : ReportData :=
  { date := "2024.05.10", shift := "Noche", participants := ["Ana"],
    comments := "", visits := [], content := [sampleEntryYardA] }

/-- A report with the known morning shift and nonempty content and
participants. -/
def morningReport : ReportData :=
  { date := "2024.05.10", shift := "Mañana", participants := ["Ana"],
    comments := "", visits := [], content := [sampleEntryYardA] }

/-- The manager state before any call to the class method that sets the
connection. -/
def uninitState : ManagerState :=
  { cxn := none, author := none }

/-- A report with an unknown shift name and an empty content list. -/
def emptyUnknownShiftReport : ReportData :=
  { date := "2024.05.10", shift := "Noche", participants := ["Ana"],
    comments := "", visits := [], content := [] }

/-- Concatenating the pages from any cursor onward yields exactly the records
from that cursor onward, in order. -/
theorem queryAllFrom_results (k : Nat) (hk : 0 < k) (records : List α) :
    ∀ start, (queryAllFrom k records start).1 = records.drop start := by
  intro start
  generalize hm : records.length - start = m
  induction m using Nat.strong_induction_on generalizing start with
  | _ m ih =>
    subst hm
    rw [queryAllFrom]
    split
    · next h =>
      dsimp only
      rw [ih (records.length - (start + k)) (by omega) (start + k) rfl]
      rw [← List.drop_drop]
      exact List.take_append_drop k (records.drop start)
    · next h =>
      dsimp only
      have hle : records.length ≤ start + k := by omega
      apply List.take_of_length_le
      simp only [List.length_drop]
      omega

/-- The loop starting at any cursor makes one request per page of the
remaining records, and at least the one request it always makes. -/
theorem queryAllFrom_requests (k : Nat) (hk : 0 < k) (records : List α) :
    ∀ start,
      (queryAllFrom k records start).2 =
        max 1 ((records.length - start + k - 1) / k) := by
  intro start
  generalize hm : records.length - start = m
  induction m using Nat.strong_induction_on generalizing start with
  | _ m ih =>
    subst hm
    rw [queryAllFrom]
    split
    · next h =>
      dsimp only
      rw [ih (records.length - (start + k)) (by omega) (start + k) rfl]
      have h1 : records.length - (start + k) + k - 1 =
          records.length - start - 1 := by omega
      have h2 : records.length - start + k - 1 =
          (records.length - start - 1) + k := by omega
      rw [h1, h2, Nat.add_div_right _ hk]
      have h3 : 1 ≤ (records.length - start - 1) / k := by
        rw [Nat.one_le_div_iff hk]
        omega
      omega
    · next h =>
      dsimp only
      have hle : records.length ≤ start + k := by omega
      have h4 : (records.length - start + k - 1) / k < 2 := by
        rw [Nat.div_lt_iff_lt_mul hk]
        omega
      omega

/-- C3 (corrected): over a collection of total records served in pages of
size k with 0 < k, the pagination loop of report_content_from_id returns all
records concatenated in page order, and it makes exactly the round up of
total over k requests whenever the collection is nonempty; for an empty
collection it makes one request, since the loop always issues its initial
request before it sees has_more. -/
theorem queryAll_pagination_spec (k : Nat) (hk : 0 < k) (records : List α) :
    (queryAll k records).1 = records ∧
    (records ≠ [] → (queryAll k records).2 = (records.length + k - 1) / k) ∧
    (records = [] → (queryAll k records).2 = 1) := by
  refine ⟨?_, ?_, ?_⟩
  · simpa using queryAllFrom_results k hk records 0
  · intro hne
    have h := queryAllFrom_requests k hk records 0
    simp only [Nat.sub_zero] at h
    have hlen : 0 < records.length := List.length_pos.mpr hne
    have h1 : 1 ≤ (records.length + k - 1) / k := by
      rw [Nat.one_le_div_iff hk]
      omega
    rw [queryAll, h]
    omega
  · intro he
    subst he
    have h := queryAllFrom_requests k hk ([] : List α) 0
    rw [queryAll, h]
    have h0 : (([] : List α).length - 0 + k - 1) / k = 0 := by
      apply Nat.div_eq_of_lt
      simp only [List.length_nil]
      omega
    omega

/-- C3 witness: four records with page size three give back the four records
in order using two requests, the ceiling of four over three. -/
theorem queryAll_pagination_spec_witness :
    (queryAll 3 ([10, 20, 30, 40] : List Nat)).1 = [10, 20, 30, 40] ∧
    (queryAll 3 ([10, 20, 30, 40] : List Nat)).2 = 2 := by
  obtain ⟨h1, h2, _⟩ :=
    queryAll_pagination_spec 3 (by norm_num) ([10, 20, 30, 40] : List Nat)
  refine ⟨h1, ?_⟩
  rw [h2 (by simp)]
  rfl

/-- C3 counterexample: an empty collection with page size ten is fetched with
one request, while the round up of zero over ten is zero, so the request
count of the claim is off for the empty collection. -/
theorem queryAll_empty_one_request :
    (queryAll 10 ([] : List RawRecord)).2 = 1 ∧
    (([] : List RawRecord).length + 10 - 1) / 10 = 0 ∧
    (queryAll 10 ([] : List RawRecord)).2 ≠
      (([] : List RawRecord).length + 10 - 1) / 10 := by
  have h : (queryAll 10 ([] : List RawRecord)).2 = 1 := by
    rw [queryAll, queryAllFrom]
    norm_num
  refine ⟨h, by norm_num, ?_⟩
  rw [h]
  norm_num

/-- C2 (confirmed): for any result list of the date query, exactly one match
returns that record, zero matches fail with the no report message and two or
more matches fail with the ambiguity message; no branch picks a first record
out of several. -/
theorem report_info_from_date_trichotomy (reports : List RawReport) :
    (∀ report, reports = [report] →
       report_info_from_date reports = .ok report) ∧
    (reports = [] →
       report_info_from_date reports =
         .error "ERROR: There is no report written on that date.") ∧
    (2 ≤ reports.length →
       report_info_from_date reports =
         .error "ERROR: More than one report within the same date.") := by
  refine ⟨?_, ?_, ?_⟩
  · rintro report rfl
    rfl
  · rintro rfl
    rfl
  · intro h2
    rcases reports with _ | ⟨a, _ | ⟨b, rest⟩⟩
    · simp at h2
    · simp at h2
    · rfl

/-- C2 witness: the three cases at concrete result lists. -/
theorem report_info_from_date_trichotomy_witness :
    report_info_from_date [sampleReportA] = .ok sampleReportA ∧
    report_info_from_date [] =
      .error "ERROR: There is no report written on that date." ∧
    report_info_from_date [sampleReportA, sampleReportB] =
      .error "ERROR: More than one report within the same date." :=
  ⟨(report_info_from_date_trichotomy [sampleReportA]).1 sampleReportA rfl,
   (report_info_from_date_trichotomy []).2.1 rfl,
   (report_info_from_date_trichotomy [sampleReportA, sampleReportB]).2.2
     (by simp)⟩

/-- Whatever its arguments, report_content_from_id either fails or returns a
flat list: the asDict shape its caller at report.py line 86 relies on is
never produced. -/
theorem report_content_from_id_asList (report_id : String)
    (childBlocks : List RawBlock) (dbRecords : String → List RawRecord)
    (k : Nat) (content : PyReportContent RawRecord)
    (h : report_content_from_id report_id childBlocks dbRecords k = .ok content) :
    ∃ l, content = .asList l := by
  simp only [report_content_from_id] at h
  split at h
  · exact ⟨_, (Except.ok.injEq _ _ |>.mp h).symm⟩
  · exact absurd h (by simp)

/-- C1 (code_bug): report_content_from_id returns the fetched records as one
flat list without any partition by a record type discriminator, and the
statement visits, report_database = report_content.values() of obtain_report
then raises AttributeError on that list. So whenever the content fetch
succeeds the unpacking fails, and obtain_report can never return a report:
the separate normalization of visit records and main entry records that the
claim describes is never reached. -/
theorem obtain_report_never_partitions (remote : RemoteWorld) :
    (∀ report_id content,
       report_content_from_id report_id remote.childBlocks remote.dbRecords
           remote.pageSize = .ok content →
       valuesUnpackTwo content =
         .error "AttributeError: list object has no attribute values") ∧
    (∀ result, obtain_report remote ≠ .ok result) := by
  constructor
  · intro report_id content h
    obtain ⟨l, rfl⟩ := report_content_from_id_asList _ _ _ _ _ h
    rfl
  · intro result h
    simp only [obtain_report] at h
    split at h
    · exact Except.noConfusion h
    · split at h
      · exact Except.noConfusion h
      · exact Except.noConfusion h
      · split at h
        · exact Except.noConfusion h
        · next report_content hcontent =>
          obtain ⟨l, rfl⟩ :=
            report_content_from_id_asList _ _ _ _ _ hcontent
          simp [valuesUnpackTwo] at h

/-- C1 witness: a report page with exactly one child database, holding no
rows, makes the content fetch succeed with the flat list shape, on which the
values call fails; and obtain_report on that world returns no report. -/
theorem obtain_report_never_partitions_witness :
    valuesUnpackTwo (PyReportContent.asList ([] : List RawRecord)) =
      .error "AttributeError: list object has no attribute values" ∧
    obtain_report sampleRemoteOneDb ≠ .ok sampleObtained := by
  constructor
  · apply (obtain_report_never_partitions sampleRemoteOneDb).1 "rep-a"
    show report_content_from_id "rep-a" sampleRemoteOneDb.childBlocks
        sampleRemoteOneDb.dbRecords sampleRemoteOneDb.pageSize =
      .ok (.asList ([] : List RawRecord))
    have hq : (queryAll 1 ([] : List RawRecord)).1 = ([] : List RawRecord) := by
      rw [queryAll, queryAllFrom]
      norm_num
    simp only [report_content_from_id, sampleRemoteOneDb]
    norm_num [hq]
  · exact (obtain_report_never_partitions sampleRemoteOneDb).2 sampleObtained

/-- C4 (corrected): validation of an entry fails exactly on a missing name or
a missing yard, with the fixed message naming the missing field, the name
check first; when both mandatory fields are present it always succeeds, and
exactly the absent optional fields become the empty string: an absent
observations, important or status field is set to the empty string, while a
present one keeps its extracted value, the plain text of its first run or
the name of its select value. The record identifier, although present on the
raw record, is not part of either error message; the counterexample below
pins this down. -/
theorem filter_content_validation_spec (entry : RawRecord) :
    (entry.nombre = [] →
       _filter_content entry = .error "ERROR: Some entry has no name.") ∧
    (entry.nombre ≠ [] → entry.patio = none →
       _filter_content entry = .error "ERROR: Some entry has no yard.") ∧
    (entry.nombre ≠ [] → entry.patio ≠ none →
       ∃ result, _filter_content entry = .ok result ∧
         (entry.observaciones = [] → result.observations = "") ∧
         (∀ run rest, entry.observaciones = run :: rest →
            result.observations = run.plain_text) ∧
         (entry.importante = [] → result.important = "") ∧
         (∀ run rest, entry.importante = run :: rest →
            result.important = run.plain_text) ∧
         (entry.estado = none → result.state = "") ∧
         (∀ sel, entry.estado = some sel → result.state = sel.name)) := by
  obtain ⟨id, imp, nom, pat, obs, impo, est⟩ := entry
  refine ⟨?_, ?_, ?_⟩
  · rintro rfl
    rfl
  · rintro hn rfl
    rcases nom with _ | ⟨run, rest⟩
    · exact absurd rfl hn
    · rfl
  · intro hn hp
    rcases nom with _ | ⟨run, rest⟩
    · exact absurd rfl hn
    · rcases pat with _ | patio
      · exact absurd rfl hp
      · refine ⟨_, rfl, ?_, ?_, ?_, ?_, ?_, ?_⟩
        · rintro rfl
          rfl
        · rintro orun orest rfl
          rfl
        · rintro rfl
          rfl
        · rintro irun irest rfl
          rfl
        · rintro rfl
          rfl
        · rintro sel rfl
          rfl

/-- C4 witness: an entry with all optional fields absent normalizes to empty
strings for all of them, and an entry with observations and status present
but the important field absent keeps the present values and blanks only the
absent field. -/
theorem filter_content_validation_spec_witness :
    (∃ result, _filter_content sampleEntryOk = .ok result ∧
       result.observations = "" ∧ result.important = "" ∧ result.state = "") ∧
    (∃ result, _filter_content sampleEntryFull = .ok result ∧
       result.observations = "eats well" ∧ result.important = "" ∧
       result.state = "Baja") := by
  constructor
  · obtain ⟨result, hok, ho1, ho2, hi1, hi2, he1, he2⟩ :=
      (filter_content_validation_spec sampleEntryOk).2.2 (by decide) (by decide)
    exact ⟨result, hok, ho1 rfl, hi1 rfl, he1 rfl⟩
  · obtain ⟨result, hok, ho1, ho2, hi1, hi2, he1, he2⟩ :=
      (filter_content_validation_spec sampleEntryFull).2.2 (by decide) (by decide)
    exact ⟨result, hok, ho2 { plain_text := "eats well" } [] rfl, hi1 rfl,
      he2 { name := "Baja" } rfl⟩

/-- C4 counterexample: the nameless entry with identifier abc123 fails with
the fixed message, which names the missing field but does not contain the
identifier of the record, although the raw record carries one. -/
theorem filter_content_error_lacks_record_id :
    _filter_content sampleEntryNoName = .error "ERROR: Some entry has no name." ∧
    sampleEntryNoName.id = "abc123" ∧
    strContainsSub "ERROR: Some entry has no name." "abc123" = false ∧
    strContainsSub "ERROR: Some entry has no name." "name" = true := by
  refine ⟨rfl, rfl, by decide, by decide⟩

/-- C8 (confirmed): the visit impression extraction of obtain_report fails
with the IndexError of a direct first index on a visit row whose impression
run list is empty, so it neither raises a validation message nor defaults to
an empty string; on a row with at least one run it returns the plain text of
the first run. -/
theorem visit_impression_extraction_spec (visit : RawRecord) :
    (visit.impresion = [] →
       extractImpression visit = .error "IndexError: list index out of range" ∧
       ∀ s, extractImpression visit ≠ .ok s) ∧
    (∀ run rest, visit.impresion = run :: rest →
       extractImpression visit = .ok run.plain_text) := by
  constructor
  · intro h
    constructor
    · simp [extractImpression, h]
    · intro s hs
      simp [extractImpression, h] at hs
  · intro run rest h
    simp [extractImpression, h]

/-- C8 witness: a visit row without runs fails with the IndexError and a
visit row with the run Good extracts Good. -/
theorem visit_impression_extraction_spec_witness :
    extractImpression sampleVisitNoRun =
      .error "IndexError: list index out of range" ∧
    extractImpression sampleVisitGood = .ok "Good" := by
  constructor
  · exact ((visit_impression_extraction_spec sampleVisitNoRun).1 rfl).1
  · exact (visit_impression_extraction_spec sampleVisitGood).2
      { plain_text := "Good" } [] rfl

/-- charListLeb is total: of two character lists, one is at most the other. -/
theorem charListLeb_total :
    ∀ as bs : List Char, charListLeb as bs = true ∨ charListLeb bs as = true := by
  intro as
  induction as with
  | nil =>
    intro bs
    left
    rfl
  | cons a as ih =>
    intro bs
    cases bs with
    | nil =>
      right
      rfl
    | cons b bs =>
      by_cases hab : a < b
      · left
        simp [charListLeb, hab]
      · by_cases hba : b < a
        · right
          simp [charListLeb, hba]
        · rcases ih bs with h | h
          · left
            simp [charListLeb, hab, hba, h]
          · right
            simp [charListLeb, hab, hba, h]

/-- charListLeb is transitive. -/
theorem charListLeb_trans :
    ∀ as bs cs : List Char, charListLeb as bs = true →
      charListLeb bs cs = true → charListLeb as cs = true := by
  intro as
  induction as with
  | nil =>
    intro bs cs h1 h2
    rfl
  | cons a as ih =>
    intro bs cs h1 h2
    cases bs with
    | nil =>
      simp [charListLeb] at h1
    | cons b bs =>
      cases cs with
      | nil =>
        simp [charListLeb] at h2
      | cons c cs =>
        simp only [charListLeb] at h1 h2 ⊢
        by_cases hab : a < b
        · by_cases hbc : b < c
          · simp [lt_trans hab hbc]
          · by_cases hcb : c < b
            · simp [hbc, hcb] at h2
            · have hbeqc : b = c := le_antisymm (not_lt.mp hcb) (not_lt.mp hbc)
              subst hbeqc
              simp [hab]
        · by_cases hba : b < a
          · simp [hab, hba] at h1
          · have haeqb : a = b := le_antisymm (not_lt.mp hba) (not_lt.mp hab)
            subst haeqb
            simp only [hab, lt_irrefl, if_false] at h1 ⊢
            by_cases hac : a < c
            · simp [hac]
            · by_cases hca : c < a
              · simp [hac, hca] at h2
              · simp only [hac, hca, if_false] at h2 ⊢
                exact ih bs cs h1 h2

/-- Membership in an ordered insertion. -/
theorem mem_orderedIns (x z : String) :
    ∀ l : List String, z ∈ orderedIns x l ↔ z = x ∨ z ∈ l := by
  intro l
  induction l with
  | nil =>
    simp [orderedIns]
  | cons y ys ih =>
    by_cases hxy : strLeb x y
    · simp [orderedIns, hxy]
    · simp only [orderedIns]
      rw [if_neg hxy]
      simp only [List.mem_cons, ih]
      tauto

/-- Ordered insertion preserves sortedness with respect to strLeb. -/
theorem sorted_orderedIns (x : String) :
    ∀ l : List String, l.Pairwise (fun a b => strLeb a b = true) →
      (orderedIns x l).Pairwise (fun a b => strLeb a b = true) := by
  intro l
  induction l with
  | nil =>
    intro _
    simp [orderedIns]
  | cons y ys ih =>
    intro h
    rcases List.pairwise_cons.mp h with ⟨hy, hys⟩
    by_cases hxy : strLeb x y
    · simp only [orderedIns, hxy, if_true]
      refine List.pairwise_cons.mpr ⟨?_, h⟩
      intro z hz
      rcases List.mem_cons.mp hz with rfl | hz
      · exact hxy
      · exact charListLeb_trans _ _ _ hxy (hy z hz)
    · simp only [orderedIns, hxy, if_false]
      refine List.pairwise_cons.mpr ⟨?_, ih hys⟩
      intro z hz
      rcases (mem_orderedIns x z ys).mp hz with rfl | hz
      · rcases charListLeb_total z.data y.data with h | h
        · exact absurd h hxy
        · exact h
      · exact hy z hz

/-- The insertion sort by strLeb is sorted. -/
theorem sorted_insSort :
    ∀ l : List String, (insSort l).Pairwise (fun a b => strLeb a b = true) := by
  intro l
  induction l with
  | nil =>
    simp [insSort]
  | cons y ys ih =>
    exact sorted_orderedIns y (insSort ys) ih

/-- Ordered insertion is a permutation of pushing in front. -/
theorem perm_orderedIns (x : String) :
    ∀ l : List String, (orderedIns x l).Perm (x :: l) := by
  intro l
  induction l with
  | nil =>
    exact List.Perm.refl [x]
  | cons y ys ih =>
    by_cases hxy : strLeb x y
    · simp [orderedIns, hxy]
    · simp only [orderedIns, hxy, if_false]
      exact (ih.cons y).trans (List.Perm.swap x y ys)

/-- The insertion sort by strLeb permutes its input. -/
theorem perm_insSort : ∀ l : List String, (insSort l).Perm l := by
  intro l
  induction l with
  | nil =>
    exact List.Perm.refl []
  | cons y ys ih =>
    exact (perm_orderedIns y (insSort ys)).trans (ih.cons y)

/-- C5 (corrected): the grouping of Report.write lists the category groups in
ascending lexicographic key order, the pandas groupby default, not in first
occurrence order; the group keys are exactly the distinct categories, each
group keeps the source order of its rows, and on the categories A, B, A of
the claim example the group order A, B does hold, because there the two
orders coincide. -/
theorem groupByYard_grouping_spec (entries : List Entry) :
    ((groupByYard entries).map Prod.fst).Pairwise (fun a b => strLeb a b = true) ∧
    ((groupByYard entries).map Prod.fst).Perm
      (firstKeys (entries.map (fun e => e.yard))) ∧
    (∀ p ∈ groupByYard entries,
       p.2 = entries.filter (fun e => e.yard == p.1)) ∧
    (groupByYard entriesABA).map Prod.fst = ["A", "B"] := by
  have hpair : ∀ keys : List String,
      (keys.map (fun y => (y, entries.filter (fun e => e.yard == y)))).map
        Prod.fst = keys := by
    intro keys
    induction keys with
    | nil => rfl
    | cons a t ih => simp [ih]
  have hkeys : (groupByYard entries).map Prod.fst =
      insSort (firstKeys (entries.map (fun e => e.yard))) := by
    rw [groupByYard]
    exact hpair _
  refine ⟨?_, ?_, ?_, by decide⟩
  · rw [hkeys]
    exact sorted_insSort _
  · rw [hkeys]
    exact perm_insSort _
  · intro p hp
    simp only [groupByYard, List.mem_map] at hp
    obtain ⟨y, hy, rfl⟩ := hp
    rfl

/-- C5 witness: in the list with yards B then A, the group of key A is the
source order filter of the entries with yard A. -/
theorem groupByYard_grouping_spec_witness :
    (("A", [sampleEntryYardA]) : String × List Entry).2 =
      entriesBA.filter (fun e => e.yard == "A") := by
  exact (groupByYard_grouping_spec entriesBA).2.2.1
    (("A", [sampleEntryYardA]) : String × List Entry) (by decide)

/-- C5 counterexample: on entries with yard categories B then A the code
groups in ascending order A, B, while the first occurrence order of the claim
is B, A, so the claimed order fails. -/
theorem groupByYard_sorted_not_first_occurrence :
    (groupByYard entriesBA).map Prod.fst = ["A", "B"] ∧
    (groupByCategorySpec entriesBA).map Prod.fst = ["B", "A"] ∧
    groupByYard entriesBA ≠ groupByCategorySpec entriesBA := by
  refine ⟨by decide, by decide, by decide⟩

/-- C6 (confirmed): the status count of Report.write is the number of entries
whose state equals the given label exactly; the three bucket counts together
count exactly the entries carrying one of the three recognized labels, so an
entry with any other or empty status falls in none of the buckets; and the
statuses Baja, Adoptado, Baja of the claim example give two, one and zero. -/
theorem countByStatus_exact_match (entries : List Entry) :
    (∀ status, countByStatus entries status =
       (entries.map (fun e => e.state)).count status) ∧
    (countByStatus entries "Acogida" + countByStatus entries "Baja" +
        countByStatus entries "Adoptado" =
      entries.countP (fun e =>
        e.state == "Acogida" || e.state == "Baja" || e.state == "Adoptado")) ∧
    (countByStatus statusEntries "Baja" = 2 ∧
     countByStatus statusEntries "Adoptado" = 1 ∧
     countByStatus statusEntries "Acogida" = 0) := by
  refine ⟨?_, ?_, by decide, by decide, by decide⟩
  · intro status
    rw [List.count_eq_countP, List.countP_map]
    rfl
  · induction entries with
    | nil => rfl
    | cons e t ih =>
      simp only [countByStatus, List.countP_cons] at ih ⊢
      by_cases h1 : e.state = "Acogida" <;> by_cases h2 : e.state = "Baja" <;>
        by_cases h3 : e.state = "Adoptado" <;>
        simp [h1, h2, h3, ih] <;> omega

/-- C7 (corrected): for a report with at least one entry and at least one
participant (every constructed report has the author as a participant),
rendering fails on the hours table exactly for a shift outside its two keys,
the KeyError branch the specification names ConfigError; for a known shift it
succeeds and the output contains the two fixed label clock time lines built
from the table, whose keys are exactly the morning and afternoon shift. A
zero entry report with an unknown shift instead fails earlier, at the status
counts; the counterexample below shows it. -/
theorem write_shift_lookup_spec (r : ReportData) (hc : r.content ≠ [])
    (hp : r.participants ≠ []) :
    (hoursLookup r.shift = none →
       writeReport r = .error (.unknownShift r.shift)) ∧
    (∀ startHour endHour, hoursLookup r.shift = some (startHour, endHour) →
       ∃ lines, writeReport r = .ok lines ∧
         ("Hora de entrada: " ++ startHour) ∈ lines ∧
         ("Hora de entrada: " ++ endHour) ∈ lines) ∧
    (∀ shift, hoursLookup shift = none ↔ shift ≠ "Mañana" ∧ shift ≠ "Tarde") := by
  have hce : r.content.isEmpty = false := by
    rcases hl : r.content with _ | _
    · exact absurd hl hc
    · rfl
  obtain ⟨lastP, hgl⟩ : ∃ lastP, r.participants.getLast? = some lastP := by
    rcases hgl : r.participants.getLast? with _ | lastP
    · exact absurd (List.getLast?_eq_none_iff.mp hgl) hp
    · exact ⟨lastP, rfl⟩
  refine ⟨?_, ?_, ?_⟩
  · intro hnone
    simp [writeReport, hce, hgl, hnone]
  · intro startHour endHour hsome
    simp only [writeReport, hce, Bool.false_eq_true, if_false, hgl, hsome]
    refine ⟨_, rfl, ?_, ?_⟩
    · simp
    · simp
  · intro shift
    constructor
    · intro hnone
      constructor
      · rintro rfl
        simp [hoursLookup, hours] at hnone
      · rintro rfl
        simp [hoursLookup, hours] at hnone
    · rintro ⟨h1, h2⟩
      have e1 : ("Mañana" == shift) = false := beq_eq_false_iff_ne.mpr (Ne.symm h1)
      have e2 : ("Tarde" == shift) = false := beq_eq_false_iff_ne.mpr (Ne.symm h2)
      simp [hoursLookup, hours, List.find?, e1, e2]

/-- C7 witness: the unknown shift Noche fails with its KeyError, and the
morning shift renders with the clock lines of its table row. -/
theorem write_shift_lookup_spec_witness :
    writeReport unknownShiftReport = .error (.unknownShift "Noche") ∧
    ∃ lines, writeReport morningReport = .ok lines ∧
      ("Hora de entrada: " ++ "10:00") ∈ lines ∧
      ("Hora de entrada: " ++ "14:00") ∈ lines := by
  constructor
  · exact (write_shift_lookup_spec unknownShiftReport (by decide)
      (by decide)).1 (by decide)
  · exact (write_shift_lookup_spec morningReport (by decide)
      (by decide)).2.1 "10:00" "14:00" (by decide)

/-- C7 counterexample: a report with the unknown shift Noche but no entries
fails with the state column KeyError of the counts, not with the shift lookup
failure, so the claim does not hold for every report with an unknown shift. -/
theorem write_unknown_shift_empty_content :
    writeReport emptyUnknownShiftReport = .error .stateColumnMissing ∧
    Except.error (α := List String) WriteError.stateColumnMissing ≠
      .error (.unknownShift "Noche") := by
  refine ⟨rfl, by decide⟩

/-- C9 (confirmed): a report with an empty normalized entry list fails in
write at the status counts, because the frame built from an empty list has no
state column, so a zero entry report never renders to text. -/
theorem write_empty_content_state_column (r : ReportData)
    (h : r.content = []) :
    writeReport r = .error .stateColumnMissing ∧
    ∀ lines, writeReport r ≠ .ok lines := by
  have he : r.content.isEmpty = true := by
    rw [h]
    rfl
  constructor
  · simp [writeReport, he]
  · intro lines hl
    simp [writeReport, he] at hl

/-- C9 witness: the concrete empty content report fails with the state column
KeyError. -/
theorem write_empty_content_state_column_witness :
    writeReport emptyContentReport = .error .stateColumnMissing :=
  (write_empty_content_state_column emptyContentReport rfl).1

/-- C10 (confirmed): while the class level connection is unset, constructing
a Report fails at once with the fixed message, and the outcome is the same
for every remote world, so no remote query was consulted; the class state is
returned unchanged by construction and after the class method that sets it,
which stores exactly the connection data and the author, construction still
leaves the state untouched. -/
theorem report_construction_requires_connection (st : ManagerState)
    (remote remoteB : RemoteWorld) (date : String) :
    (st.cxn = none →
       (reportInit st remote date).result =
         .error "ERROR: The ReportManager has to be initialized first." ∧
       reportInit st remote date = reportInit st remoteB date) ∧
    ((reportInit st remote date).state = st) ∧
    (∀ author api_token database_id,
       (initManager author api_token database_id).cxn =
         some { api_token := api_token, database_id := database_id } ∧
       (initManager author api_token database_id).author = some author ∧
       (reportInit (initManager author api_token database_id) remote
           date).state =
         initManager author api_token database_id) := by
  refine ⟨?_, ?_, ?_⟩
  · intro h
    have hn : st.cxn.isNone = true := by
      rw [h]
      rfl
    constructor
    · simp [reportInit, hn]
    · simp [reportInit, hn]
  · rw [reportInit]
    split
    · rfl
    · split
      · rfl
      · rfl
  · intro author api_token database_id
    refine ⟨rfl, rfl, ?_⟩
    rw [reportInit]
    split
    · rfl
    · split
      · rfl
      · rfl

/-- C10 witness: before the class method runs, construction fails with the
fixed message and the outcome is identical across two different remote
worlds; after it runs with concrete values, the state survives construction
unchanged. -/
theorem report_construction_requires_connection_witness :
    (reportInit uninitState sampleRemoteOneDb "10/05/2024").result =
      .error "ERROR: The ReportManager has to be initialized first." ∧
    reportInit uninitState sampleRemoteOneDb "10/05/2024" =
      reportInit uninitState sampleRemoteTwo "10/05/2024" ∧
    (reportInit (initManager "Bob" "token" "db") sampleRemoteOneDb
        "10/05/2024").state =
      initManager "Bob" "token" "db" := by
  obtain ⟨h1, h2⟩ :=
    (report_construction_requires_connection uninitState sampleRemoteOneDb
      sampleRemoteTwo "10/05/2024").1 rfl
  have h3 :=
    ((report_construction_requires_connection (initManager "Bob" "token" "db")
      sampleRemoteOneDb sampleRemoteTwo "10/05/2024").2.2 "Bob" "token"
      "db").2.2
  exact ⟨h1, h2, h3⟩
